import Mathlib

set_option maxRecDepth 8000

/-!
Verification of the cross-border payment orchestration service.

This file gives a shallow embedding, in Lean 4, of the parts of the
TypeScript source that the specification's testable properties talk
about: the fee engine (`FeeEngine.calculateFees`), the payment
orchestrator (`PaymentOrchestrator.createPayment`,
`monitorOnrampCompletion`, `cancelPayment`, `updatePaymentStatus`), the
webhook service (`WebhookService.handleWebhookFailure`, `retryWebhook`)
and the exchange-rate service (`ExchangeRateService.getBaseRate`,
`fetchExchangeRate`, `getExchangeRate`).

Numbers are embedded as exact rationals (ℚ); the JavaScript expression
`Math.round(x * 100) / 100` becomes `round2`, with `Math.round`
modelled as `⌊x + 1/2⌋` (JavaScript rounds halves toward +∞).
Database effects are modelled as explicit state passing over small
state records; asynchronous callbacks (`setInterval` ticks, the
`setTimeout` timeout handler) become explicit step functions driven by
an oracle stream of polled transaction statuses.
-/

namespace CrossPay

/-- JavaScript `Math.round`: rounds to the nearest integer, halves toward +∞. -/
def jsRound (q : ℚ) : ℤ := (q + 1/2).floor

/-- `Math.round(x * 100) / 100`, the 2-decimal rounding used throughout the source. -/
def round2 (q : ℚ) : ℚ := (jsRound (q * 100) : ℚ) / 100

/-- `Math.round(x * 100000) / 100000`, the 5-decimal rounding used by the rate service. -/
def round5 (q : ℚ) : ℚ := (jsRound (q * 100000) : ℚ) / 100000

/-! ## Fee engine (src: feeEngine.ts, `FeeEngine`) -/

/-- A row of the `fee_configs` table. `maximum_fee` is nullable. -/
structure FeeConfig where
  base_fee : ℚ
  percentage_fee : ℚ
  minimum_fee : ℚ
  maximum_fee : Option ℚ
deriving DecidableEq

/-- The result record of `FeeEngine.calculateFees`. -/
structure FeeCalculation where
  base_fee : ℚ
  percentage_fee : ℚ
  total_fee : ℚ
  currency : String
deriving DecidableEq

/-- The `total_fee` computation of `FeeEngine.calculateFees`:
`max(base + amount*pct, min)`, capped at `maximum_fee` when that is set and
non-zero (JavaScript truthiness of `feeConfig.maximum_fee &&`), then rounded
to 2 decimals. -/
def totalFeeOf (feeConfig : FeeConfig) (destinationAmount : ℚ) : ℚ :=
  let rawTotalFee := feeConfig.base_fee + destinationAmount * feeConfig.percentage_fee
  let clamped := max rawTotalFee feeConfig.minimum_fee
  let capped :=
    match feeConfig.maximum_fee with
    | some m => if m ≠ 0 ∧ clamped > m then m else clamped
    | none => clamped
  round2 capped

/-- `FeeEngine.calculateFees(destinationCurrency, destinationAmount)`, with the
`fee_configs` table abstracted as a lookup function. Throws (here: returns
`Except.error`) when no fee configuration exists for the currency. -/
def calculateFees (lookup : String → Option FeeConfig)
    (destinationCurrency : String) (destinationAmount : ℚ) : Except String FeeCalculation :=
  match lookup destinationCurrency with
  | none => Except.error ("Fee configuration not found for currency: " ++ destinationCurrency)
  | some feeConfig =>
    Except.ok
      { base_fee := feeConfig.base_fee
        percentage_fee := destinationAmount * feeConfig.percentage_fee
        total_fee := totalFeeOf feeConfig destinationAmount
        currency := destinationCurrency }

/-- The default fee configurations inserted by `Database.insertDefaultFeeConfigs`.
These are the only rows ever written to `fee_configs` in the repository
(`FeeEngine.updateFeeConfig` has no caller). -/
def defaultFeeConfigs : String → Option FeeConfig
  | "EUR" => some ⟨5/2, 299/10000, 1, some 50⟩
  | "GBP" => some ⟨2, 299/10000, 1, some 50⟩
  | "CAD" => some ⟨3, 349/10000, 3/2, some 75⟩
  | "AUD" => some ⟨7/2, 349/10000, 3/2, some 75⟩
  | "JPY" => some ⟨300, 399/10000, 100, some 7500⟩
  | "INR" => some ⟨200, 399/10000, 100, some 5000⟩
  | "BRL" => some ⟨15, 449/10000, 5, some 300⟩
  | "MXN" => some ⟨50, 449/10000, 20, some 1000⟩
  | _ => none

/-- Modelled from the spec: `clamp(base_fee + amount×percentage_fee, min_fee,
max_fee), rounded to 2 decimals` — the fee formula as §4.3 words it, to be
compared against `totalFeeOf` taken from the source. -/
def clampRoundSpec (feeConfig : FeeConfig) (raw : ℚ) : ℚ :=
  match feeConfig.maximum_fee with
  | some m => round2 (min (max raw feeConfig.minimum_fee) m)
  | none => round2 (max raw feeConfig.minimum_fee)

/-! ## Payment data model (src: types/payment.ts, database.ts) -/

/-- `PaymentStatus` from types/payment.ts. -/
inductive PayStatus
  | pending
  | processing
  | onrampComplete
  | offrampProcessing
  | completed
  | failed
  | cancelled
deriving DecidableEq

/-- `TransactionStatus` from types/payment.ts. -/
inductive TxStatus
  | pending
  | processing
  | completed
  | failed
deriving DecidableEq

/-- The body of a `POST /payments` request (`CreatePaymentRequest`). -/
structure CreatePaymentRequest where
  user_id : String
  idempotency_key : String
  source_amount : ℚ
  source_currency : String
  destination_currency : String
  webhook_url : Option String
deriving DecidableEq

/-- A row of the `payments` table. `id` is modelled as a Nat drawn from a
counter in place of a generated UUID. -/
structure Payment where
  id : Nat
  user_id : String
  idempotency_key : String
  source_amount : ℚ
  source_currency : String
  destination_amount : ℚ
  destination_currency : String
  exchange_rate : ℚ
  status : PayStatus
  fee_amount : ℚ
  total_amount : ℚ
deriving DecidableEq

/-- The durable state touched by `PaymentOrchestrator.createPayment`:
the `payments` table, plus a record of the side effects the call fires
(which payments had the asynchronous `processPayment` step sequence
started — each such start creates the onramp/offramp settlement
transaction pair — and how many webhooks were scheduled). -/
structure Ledger where
  payments : List Payment
  processingStartedFor : List Nat
  webhooksScheduled : Nat
  nextId : Nat
deriving DecidableEq

/-- `SELECT * FROM payments WHERE idempotency_key = ?` (first match). -/
def lookupByKey (st : Ledger) (k : String) : Option Payment :=
  st.payments.find? (fun p => p.idempotency_key == k)

/-- `PaymentOrchestrator.createPayment`. The exchange rate returned by
`ExchangeRateService.getExchangeRate` is passed in as `rate` (it is drawn
from a cache or a jittered mock — see `getExchangeRate` below); the
`fee_configs` table is the `cfgs` lookup. Faithful to the source order:
idempotency-key replay check first (returning the existing payment with no
side effects), then currency-support check, then amount/fee computation,
then the insert, the optional `payment.created` webhook, and the
fire-and-forget `processPayment(paymentId)`. -/
def createPayment (cfgs : String → Option FeeConfig) (st : Ledger)
    (req : CreatePaymentRequest) (rate : ℚ) : Except String (Ledger × Payment) :=
  match lookupByKey st req.idempotency_key with
  | some existingPayment => Except.ok (st, existingPayment)
  | none =>
    match cfgs req.destination_currency with
    | none =>
      Except.error ("Destination currency " ++ req.destination_currency ++ " is not supported")
    | some feeConfig =>
      let destinationAmount := req.source_amount * rate
      let fee := totalFeeOf feeConfig destinationAmount
      let feeInSourceCurrency := fee / rate
      let totalAmount := req.source_amount + feeInSourceCurrency
      let payment : Payment :=
        { id := st.nextId
          user_id := req.user_id
          idempotency_key := req.idempotency_key
          source_amount := req.source_amount
          source_currency := req.source_currency
          destination_amount := round2 destinationAmount
          destination_currency := req.destination_currency
          exchange_rate := rate
          status := PayStatus.pending
          fee_amount := fee
          total_amount := round2 totalAmount }
      let st2 : Ledger :=
        { payments := st.payments ++ [payment]
          processingStartedFor := st.processingStartedFor ++ [payment.id]
          webhooksScheduled :=
            st.webhooksScheduled + (if req.webhook_url.isSome then 1 else 0)
          nextId := st.nextId + 1 }
      Except.ok (st2, payment)

/-! ## Orchestrator monitoring loop (src: paymentOrchestrator.ts) -/

/-- The per-payment state mutated by `monitorOnrampCompletion`,
`cancelPayment` and `updatePaymentStatus`: the payment's `status` column, a
count of scheduled webhooks, whether `processOfframp` has created the
offramp settlement transaction, and whether the `setInterval` polling
handle is still live (`clearInterval` not yet called). -/
structure MonitorState where
  payStatus : PayStatus
  webhooksSent : Nat
  offrampStarted : Bool
  pollingActive : Bool
deriving DecidableEq

/-- `PaymentOrchestrator.updatePaymentStatus`: unconditionally writes the new
status (no check of the current status) and always schedules a status
webhook. -/
def updatePaymentStatus (s : MonitorState) (st : PayStatus) : MonitorState :=
  { s with payStatus := st, webhooksSent := s.webhooksSent + 1 }

/-- One run of the `setInterval` callback in
`PaymentOrchestrator.monitorOnrampCompletion`, given the result of
`onrampService.getTransactionStatus` for this tick. If the interval has
been cleared the callback no longer runs. Note the callback never reads
the payment's own status: it cannot see a cancellation.
On `completed`: clear the interval, set `ONRAMP_COMPLETE` (with its status
webhook), schedule the `onramp.completed` webhook, then `processOfframp`
sets `OFFRAMP_PROCESSING` (with its status webhook) and creates the offramp
settlement transaction. On `failed` or a missing transaction: clear the
interval and set `FAILED`. Otherwise: keep polling. -/
def monitorOnrampTick (s : MonitorState) (tx : Option TxStatus) : MonitorState :=
  if s.pollingActive then
    match tx with
    | none => updatePaymentStatus { s with pollingActive := false } PayStatus.failed
    | some TxStatus.completed =>
      let s1 := updatePaymentStatus { s with pollingActive := false } PayStatus.onrampComplete
      let s2 := { s1 with webhooksSent := s1.webhooksSent + 1 }
      let s3 := updatePaymentStatus s2 PayStatus.offrampProcessing
      { s3 with offrampStarted := true }
    | some TxStatus.failed => updatePaymentStatus { s with pollingActive := false } PayStatus.failed
    | _ => s
  else s

/-- Run the polling callback for `fuel` ticks, the tick at index `i` seeing
`stream i` as the polled onramp transaction status (one tick every 5
seconds in the source). -/
def runMonitorFrom (stream : Nat → Option TxStatus) : Nat → Nat → MonitorState → MonitorState
  | _, 0, s => s
  | i, n + 1, s => runMonitorFrom stream (i + 1) n (monitorOnrampTick s (stream i))

/-- The 30-minute window of `monitorOnrampCompletion`: 360 five-second poll
ticks, after which the `setTimeout(…, 30*60*1000)` handler fires and does
nothing but `clearInterval(checkInterval)`. -/
def orchMonitorRun (stream : Nat → Option TxStatus) (s : MonitorState) : MonitorState :=
  let s1 := runMonitorFrom stream 0 360 s
  { s1 with pollingActive := false }

/-- `PaymentOrchestrator.cancelPayment`: returns `false` when the payment is
missing or its status is COMPLETED or FAILED; otherwise writes CANCELLED via
`updatePaymentStatus` (which also emits a status webhook) and returns
`true`. It does not clear any polling interval. -/
def cancelPaymentRun : Option MonitorState → Option MonitorState × Bool
  | none => (none, false)
  | some s =>
    if s.payStatus = PayStatus.completed ∨ s.payStatus = PayStatus.failed then (some s, false)
    else (some (updatePaymentStatus s PayStatus.cancelled), true)

/-! ## Webhook delivery (src: webhookService.ts) -/

/-- `WebhookStatus` from types/payment.ts. -/
inductive WhStatus
  | pending
  | sent
  | failed
deriving DecidableEq

/-- The `status` and `retry_count` columns of a `webhooks` row. -/
structure WebhookRec where
  status : WhStatus
  retry_count : Nat
deriving DecidableEq

/-- A fresh delivery record as inserted by `WebhookService.scheduleWebhook`. -/
def initWebhook : WebhookRec := ⟨WhStatus.pending, 0⟩

/-- One `sendWebhookAsync` attempt: on HTTP success mark `sent`; on failure
run `handleWebhookFailure`, which stores `retry_count + 1` and keeps the
record `pending` (and schedules a retry) while the incremented count is
still ≤ maxRetries = 3, else marks it `failed`. Returns the updated record
and whether a retry timer was scheduled. -/
def sendWebhookAttempt (w : WebhookRec) (httpOk : Bool) : WebhookRec × Bool :=
  if httpOk then ({ w with status := WhStatus.sent }, false)
  else
    let retryCount := w.retry_count + 1
    if retryCount ≤ 3 then (⟨WhStatus.pending, retryCount⟩, true)
    else (⟨WhStatus.failed, retryCount⟩, false)

/-- The automatic delivery loop: the initial attempt made by
`scheduleWebhook`, followed by the retries that `handleWebhookFailure`
keeps scheduling; `outcomes` lists the HTTP outcome of each attempt. -/
def runDelivery : List Bool → WebhookRec → WebhookRec
  | [], w => w
  | httpOk :: rest, w =>
    if (sendWebhookAttempt w httpOk).2 then runDelivery rest (sendWebhookAttempt w httpOk).1
    else (sendWebhookAttempt w httpOk).1

/-- `WebhookService.retryWebhook` (manual retry endpoint): refuses (`false`)
only when the record is missing or already `sent`; otherwise resets
`retry_count` to 0, sets the record back to `pending`, re-sends, and
returns `true` — including for a record already marked `failed`. -/
def retryWebhook (w : WebhookRec) : WebhookRec × Bool :=
  if w.status = WhStatus.sent then (w, false)
  else (⟨WhStatus.pending, 0⟩, true)

/-! ## Exchange rates (src: exchangeRateService.ts) -/

/-- The `mockRates['USD']` row of `ExchangeRateService`. -/
def usdRates : List (String × ℚ) :=
  [("EUR", 17/20), ("GBP", 73/100), ("CAD", 5/4), ("AUD", 27/20), ("JPY", 110),
   ("INR", 149/2), ("BRL", 26/5), ("MXN", 201/10), ("CHF", 23/25), ("SEK", 87/10),
   ("NOK", 89/10)]

/-- Look a currency up in `usdRates`. -/
def lookupRate (c : String) : Option ℚ :=
  (usdRates.find? (fun e => e.1 == c)).map (fun e => e.2)

/-- `this.mockRates[from]?.[to]` after `initializeBaseCurrencies` has added
the inverse `c → USD` entry for every currency `c` in the USD row: the USD
row itself, the added inverse entries, and nothing else. -/
def mockRate (src dst : String) : Option ℚ :=
  if src = "USD" then lookupRate dst
  else if dst = "USD" then (lookupRate src).map (fun r => 1 / r)
  else none

/-- `mockRates[src]?.['USD'] || (1 / mockRates['USD']?.[src] || 1)` — the
source-to-USD leg of the cross rate, with JavaScript `||` fallbacks
(`1 / undefined` is `NaN`, which falls through to `1`). -/
def crossLegSrc (src : String) : ℚ :=
  match mockRate src "USD" with
  | some r => r
  | none =>
    match mockRate "USD" src with
    | some r => 1 / r
    | none => 1

/-- `mockRates['USD']?.[dst] || (1 / mockRates[dst]?.['USD'] || 1)` — the
USD-to-destination leg of the cross rate. -/
def crossLegDst (dst : String) : ℚ :=
  match mockRate "USD" dst with
  | some r => r
  | none =>
    match mockRate dst "USD" with
    | some r => 1 / r
    | none => 1

/-- `ExchangeRateService.getBaseRate`: direct rate, else inverse rate, else
(when neither currency is USD) the cross rate via USD, else the
`console.warn` fallback of exactly 1.0. No branch throws. -/
def getBaseRate (src dst : String) : ℚ :=
  match mockRate src dst with
  | some r => r
  | none =>
    match mockRate dst src with
    | some r => 1 / r
    | none =>
      if src ≠ "USD" ∧ dst ≠ "USD" then crossLegSrc src * crossLegDst dst
      else 1

/-- `ExchangeRateService.fetchExchangeRate`: applies the ±2% market jitter
`1 + ((Math.random() - 0.5) * 0.04)` — `rand` stands for the `Math.random()`
draw in `[0,1)` — and rounds to 5 decimal places. -/
def fetchExchangeRate (src dst : String) (rand : ℚ) : ℚ :=
  round5 (getBaseRate src dst * (1 + (rand - 1/2) * (4/100)))

/-- `ExchangeRateService.getExchangeRate`: 1.0 for the same currency, else
the cached rate when a live cache row exists, else a fresh
`fetchExchangeRate` (which is then cached). -/
def getExchangeRate (src dst : String) (cached : Option ℚ) (rand : ℚ) : ℚ :=
  if src = dst then 1
  else
    match cached with
    | some r => r
    | none => fetchExchangeRate src dst rand

/-! ## Concrete inputs used by the scenario theorems and witnesses -/

/-- An empty `payments` table. -/
def ledger0 : Ledger := ⟨[], [], 0, 0⟩

/-- Scenario A request: 100 USD → EUR. -/
def scenarioAReq : CreatePaymentRequest :=
  ⟨"user-1", "scenario-a-key", 100, "USD", "EUR", none⟩

/-- A replay of Scenario A's idempotency key with a different body. -/
def scenarioBReq : CreatePaymentRequest :=
  ⟨"user-1", "scenario-a-key", 250, "USD", "EUR", none⟩

/-- The EUR fee schedule row. -/
def eurConfig : FeeConfig := ⟨5/2, 299/10000, 1, some 50⟩

/-- The payment Scenario A creates. -/
def scenarioAPayment : Payment :=
  ⟨0, "user-1", "scenario-a-key", 100, "USD", 85, "EUR", 17/20, PayStatus.pending,
   126/25, 10593/100⟩

/-- The ledger after Scenario A. -/
def scenarioALedger : Ledger := ⟨[scenarioAPayment], [0], 0, 1⟩

/-- A payment mid-flight: status PROCESSING, onramp poll interval live. -/
def processingState : MonitorState := ⟨PayStatus.processing, 0, false, true⟩

/-- An onramp transaction that is still `pending` at every poll tick. -/
def pendingStream : Nat → Option TxStatus := fun _ => some TxStatus.pending

/-- An onramp transaction already resolved to `failed` at every poll tick. -/
def failedStream : Nat → Option TxStatus := fun _ => some TxStatus.failed

/-! ## Rounding lemmas -/

theorem jsRound_eq_floor (q : ℚ) : jsRound q = ⌊q + 1/2⌋ := by
  rw [jsRound, Rat.floor_def', ← Rat.floor_def]

theorem jsRound_mono {a b : ℚ} (h : a ≤ b) : jsRound a ≤ jsRound b := by
  rw [jsRound_eq_floor, jsRound_eq_floor]
  exact Int.floor_le_floor (by linarith)

theorem jsRound_intCast (n : ℤ) : jsRound (n : ℚ) = n := by
  rw [jsRound_eq_floor, Int.floor_eq_iff]
  constructor
  · linarith
  · linarith

theorem round2_mono {a b : ℚ} (h : a ≤ b) : round2 a ≤ round2 b := by
  have h1 := jsRound_mono (a := a * 100) (b := b * 100) (by linarith)
  have h2 : ((jsRound (a * 100) : ℤ) : ℚ) ≤ ((jsRound (b * 100) : ℤ) : ℚ) := by
    exact_mod_cast h1
  rw [round2, round2]
  linarith

/-- A value that is a whole number of cents is a fixed point of `round2`. -/
theorem round2_self {q : ℚ} (n : ℤ) (h : q * 100 = (n : ℚ)) : round2 q = q := by
  have hq : ((n : ℤ) : ℚ) / 100 = q := by linarith
  rw [round2, h, jsRound_intCast, hq]

theorem round5_mono {a b : ℚ} (h : a ≤ b) : round5 a ≤ round5 b := by
  have h1 := jsRound_mono (a := a * 100000) (b := b * 100000) (by linarith)
  have h2 : ((jsRound (a * 100000) : ℤ) : ℚ) ≤ ((jsRound (b * 100000) : ℤ) : ℚ) := by
    exact_mod_cast h1
  rw [round5, round5]
  linarith

/-- A multiple of 1/100000 is a fixed point of `round5`. -/
theorem round5_self {q : ℚ} (n : ℤ) (h : q * 100000 = (n : ℚ)) : round5 q = q := by
  have hq : ((n : ℤ) : ℚ) / 100000 = q := by linarith
  rw [round5, h, jsRound_intCast, hq]

/-! ## Fee engine lemmas -/

/-- The source's cap-then-round computation agrees with the spec's
clamp-then-round formula whenever the configured maximum is non-zero
(JavaScript truthiness makes a zero maximum behave as "no maximum"). -/
theorem totalFeeOf_eq_clamp (cfg : FeeConfig) (amt : ℚ)
    (hmax : ∀ m, cfg.maximum_fee = some m → m ≠ 0) :
    totalFeeOf cfg amt = clampRoundSpec cfg (cfg.base_fee + amt * cfg.percentage_fee) := by
  unfold totalFeeOf clampRoundSpec
  cases hm : cfg.maximum_fee with
  | none => rfl
  | some m =>
    have hm0 := hmax m hm
    simp only
    congr 1
    by_cases hgt : max (cfg.base_fee + amt * cfg.percentage_fee) cfg.minimum_fee > m
    · rw [if_pos ⟨hm0, hgt⟩, min_eq_right (le_of_lt hgt)]
    · rw [if_neg (fun hc => hgt hc.2), min_eq_left (not_lt.mp hgt)]

/-- Clamping bounds survive the final 2-decimal rounding when the configured
minimum and maximum are themselves whole numbers of cents. -/
theorem totalFeeOf_bounds (cfg : FeeConfig) (amt : ℚ)
    (hmin : round2 cfg.minimum_fee = cfg.minimum_fee)
    (hmax : ∀ m, cfg.maximum_fee = some m → m ≠ 0 ∧ cfg.minimum_fee ≤ m ∧ round2 m = m) :
    cfg.minimum_fee ≤ totalFeeOf cfg amt ∧
      ∀ m, cfg.maximum_fee = some m → totalFeeOf cfg amt ≤ m := by
  unfold totalFeeOf
  cases hm : cfg.maximum_fee with
  | none =>
    simp only
    refine ⟨?_, fun m hmm => by cases hmm⟩
    calc cfg.minimum_fee = round2 cfg.minimum_fee := hmin.symm
      _ ≤ round2 (max (cfg.base_fee + amt * cfg.percentage_fee) cfg.minimum_fee) :=
        round2_mono (le_max_right _ _)
  | some m =>
    obtain ⟨hm0, hlem, hm2⟩ := hmax m hm
    simp only
    set capped :=
      (if m ≠ 0 ∧ max (cfg.base_fee + amt * cfg.percentage_fee) cfg.minimum_fee > m then m
       else max (cfg.base_fee + amt * cfg.percentage_fee) cfg.minimum_fee) with hcap
    have hv1 : cfg.minimum_fee ≤ capped := by
      rw [hcap]
      split_ifs with hc
      · exact hlem
      · exact le_max_right _ _
    have hv2 : capped ≤ m := by
      rw [hcap]
      split_ifs with hc
      · exact le_refl m
      · rcases not_and_or.mp hc with h0 | hlt
        · exact absurd hm0 (fun hne => h0 hne)
        · exact not_lt.mp hlt
    refine ⟨?_, fun m2 hmm => ?_⟩
    · calc cfg.minimum_fee = round2 cfg.minimum_fee := hmin.symm
        _ ≤ round2 capped := round2_mono hv1
    · injection hmm with hmm
      subst hmm
      calc round2 capped ≤ round2 m := round2_mono hv2
        _ = m := hm2

/-- Every default fee schedule has a cent-valued minimum and a non-zero,
cent-valued maximum at least the minimum. -/
theorem defaultFeeConfigs_ok (c : String) (cfg : FeeConfig)
    (h : defaultFeeConfigs c = some cfg) :
    round2 cfg.minimum_fee = cfg.minimum_fee ∧
      ∀ m, cfg.maximum_fee = some m → m ≠ 0 ∧ cfg.minimum_fee ≤ m ∧ round2 m = m := by
  unfold defaultFeeConfigs at h
  split at h
  · injection h with h
    subst h
    refine ⟨round2_self 100 (by norm_num), fun m hm => ?_⟩
    injection hm with hm
    subst hm
    exact ⟨by norm_num, by norm_num, round2_self 5000 (by norm_num)⟩
  · injection h with h
    subst h
    refine ⟨round2_self 100 (by norm_num), fun m hm => ?_⟩
    injection hm with hm
    subst hm
    exact ⟨by norm_num, by norm_num, round2_self 5000 (by norm_num)⟩
  · injection h with h
    subst h
    refine ⟨round2_self 150 (by norm_num), fun m hm => ?_⟩
    injection hm with hm
    subst hm
    exact ⟨by norm_num, by norm_num, round2_self 7500 (by norm_num)⟩
  · injection h with h
    subst h
    refine ⟨round2_self 150 (by norm_num), fun m hm => ?_⟩
    injection hm with hm
    subst hm
    exact ⟨by norm_num, by norm_num, round2_self 7500 (by norm_num)⟩
  · injection h with h
    subst h
    refine ⟨round2_self 10000 (by norm_num), fun m hm => ?_⟩
    injection hm with hm
    subst hm
    exact ⟨by norm_num, by norm_num, round2_self 750000 (by norm_num)⟩
  · injection h with h
    subst h
    refine ⟨round2_self 10000 (by norm_num), fun m hm => ?_⟩
    injection hm with hm
    subst hm
    exact ⟨by norm_num, by norm_num, round2_self 500000 (by norm_num)⟩
  · injection h with h
    subst h
    refine ⟨round2_self 500 (by norm_num), fun m hm => ?_⟩
    injection hm with hm
    subst hm
    exact ⟨by norm_num, by norm_num, round2_self 30000 (by norm_num)⟩
  · injection h with h
    subst h
    refine ⟨round2_self 2000 (by norm_num), fun m hm => ?_⟩
    injection hm with hm
    subst hm
    exact ⟨by norm_num, by norm_num, round2_self 100000 (by norm_num)⟩
  · cases h

/-- C7: for every currency with a configured fee schedule (the default
schedules are the only ones the repository ever configures) and every
amount, `calculateFees` returns the clamp-then-round-2-decimals formula of
the spec, and the computed total fee lies between the schedule's
`minimum_fee` and `maximum_fee`; for a currency with no schedule it fails
with the unsupported-currency error. -/
theorem C7_calculateFees_clamped (currency : String) (amount : ℚ) :
    (∀ cfg, defaultFeeConfigs currency = some cfg →
      calculateFees defaultFeeConfigs currency amount =
        Except.ok
          { base_fee := cfg.base_fee
            percentage_fee := amount * cfg.percentage_fee
            total_fee := clampRoundSpec cfg (cfg.base_fee + amount * cfg.percentage_fee)
            currency := currency } ∧
      cfg.minimum_fee ≤ totalFeeOf cfg amount ∧
      (∀ m, cfg.maximum_fee = some m → totalFeeOf cfg amount ≤ m)) ∧
    (defaultFeeConfigs currency = none →
      calculateFees defaultFeeConfigs currency amount =
        Except.error ("Fee configuration not found for currency: " ++ currency)) := by
  constructor
  · intro cfg h
    obtain ⟨hmin, hmax⟩ := defaultFeeConfigs_ok currency cfg h
    have hbounds := totalFeeOf_bounds cfg amount hmin hmax
    refine ⟨?_, hbounds.1, hbounds.2⟩
    simp only [calculateFees, h]
    rw [totalFeeOf_eq_clamp cfg amount (fun m hm => (hmax m hm).1)]
  · intro h
    unfold calculateFees
    rw [h]

/-- Witness for C7: the EUR schedule at amount 85 gives fee 5.04, inside
[1, 50]; the unconfigured currency "KRW" is rejected. -/
theorem C7_witness :
    calculateFees defaultFeeConfigs "EUR" 85 =
      Except.ok { base_fee := 5/2, percentage_fee := 85 * (299/10000),
                  total_fee := 126/25, currency := "EUR" } ∧
    (1 : ℚ) ≤ totalFeeOf eurConfig 85 ∧ totalFeeOf eurConfig 85 ≤ 50 ∧
    calculateFees defaultFeeConfigs "KRW" 10 =
      Except.error "Fee configuration not found for currency: KRW" := by
  have h := (C7_calculateFees_clamped "EUR" 85).1 eurConfig rfl
  have hclamp : clampRoundSpec eurConfig (eurConfig.base_fee + 85 * eurConfig.percentage_fee) =
      126/25 := by
    unfold clampRoundSpec eurConfig
    simp only
    rw [max_eq_left (by norm_num), min_eq_left (by norm_num), round2, jsRound_eq_floor]
    norm_num
  refine ⟨?_, ?_, ?_, ?_⟩
  · rw [h.1, hclamp]
    rfl
  · exact h.2.1
  · exact h.2.2 50 rfl
  · exact (C7_calculateFees_clamped "KRW" 10).2 rfl

/-! ## Scenario A evaluation (shared by C1, C5 and C6) -/

/-- Running `createPayment` for 100 USD → EUR at rate 0.85 on an empty
ledger creates exactly `scenarioAPayment` and starts processing for it. -/
theorem scenarioA_eval :
    createPayment defaultFeeConfigs ledger0 scenarioAReq (17/20) =
      Except.ok (scenarioALedger, scenarioAPayment) := by
  have hfee : totalFeeOf eurConfig (100 * (17/20)) = 126/25 := by
    unfold totalFeeOf eurConfig
    simp only
    rw [max_eq_left (by norm_num), if_neg (by norm_num), round2, jsRound_eq_floor]
    norm_num
  have hdest : round2 ((100 : ℚ) * (17/20)) = 85 := by
    rw [round2, jsRound_eq_floor]
    norm_num
  have htot : round2 ((100 : ℚ) + 126/25 / (17/20)) = 10593/100 := by
    rw [round2, jsRound_eq_floor]
    norm_num
  have h0 : createPayment defaultFeeConfigs ledger0 scenarioAReq (17/20) =
      Except.ok
        (⟨[⟨0, "user-1", "scenario-a-key", 100, "USD", round2 (100 * (17/20)), "EUR", 17/20,
            PayStatus.pending, totalFeeOf eurConfig (100 * (17/20)),
            round2 (100 + totalFeeOf eurConfig (100 * (17/20)) / (17/20))⟩],
          [0], 0, 1⟩,
         ⟨0, "user-1", "scenario-a-key", 100, "USD", round2 (100 * (17/20)), "EUR", 17/20,
          PayStatus.pending, totalFeeOf eurConfig (100 * (17/20)),
          round2 (100 + totalFeeOf eurConfig (100 * (17/20)) / (17/20))⟩) := rfl
  rw [h0, hfee, hdest, htot]
  rfl

/-- C6: Scenario A — 100 USD → EUR at mocked rate 0.85 with the default EUR
fee schedule yields destination_amount 85.00, fee_amount 5.04 and
total_amount 105.93. -/
theorem C6_scenarioA :
    createPayment defaultFeeConfigs ledger0 scenarioAReq (17/20) =
      Except.ok (scenarioALedger, scenarioAPayment) ∧
    scenarioAPayment.destination_amount = 85 ∧
    scenarioAPayment.fee_amount = 504/100 ∧
    scenarioAPayment.total_amount = 10593/100 :=
  ⟨scenarioA_eval, rfl, by norm_num [scenarioAPayment], rfl⟩

/-- C5: for every valid (fresh-key, supported-currency) `createPayment`
request, the persisted payment satisfies
`destination_amount = round2(source_amount × rate)` and
`total_amount = round2(source_amount + fee_amount / rate)`, with
`fee_amount` the destination-currency fee. -/
theorem C5_conservation (cfgs : String → Option FeeConfig) (st : Ledger)
    (req : CreatePaymentRequest) (rate : ℚ) (st2 : Ledger) (p : Payment)
    (hfresh : lookupByKey st req.idempotency_key = none)
    (h : createPayment cfgs st req rate = Except.ok (st2, p)) :
    p.destination_amount = round2 (req.source_amount * rate) ∧
    p.total_amount = round2 (req.source_amount + p.fee_amount / rate) := by
  simp only [createPayment, hfresh] at h
  cases hc : cfgs req.destination_currency with
  | none =>
    rw [hc] at h
    cases h
  | some cfg =>
    simp only [hc, Except.ok.injEq, Prod.mk.injEq] at h
    obtain ⟨hst, hp⟩ := h
    subst hp
    exact ⟨rfl, rfl⟩

/-- Witness for C5: the Scenario A payment satisfies both conservation
equations. -/
theorem C5_witness :
    scenarioAPayment.destination_amount = round2 (scenarioAReq.source_amount * (17/20)) ∧
    scenarioAPayment.total_amount =
      round2 (scenarioAReq.source_amount + scenarioAPayment.fee_amount / (17/20)) :=
  C5_conservation defaultFeeConfigs ledger0 scenarioAReq (17/20) scenarioALedger
    scenarioAPayment rfl scenarioA_eval

/-- C1: replaying `createPayment` with the idempotency key of an existing
payment — even with a different body and a different current exchange rate —
returns the stored payment and the untouched ledger: no second payment row,
no second start of the settlement (onramp/offramp) step sequence, no new
webhooks. -/
theorem C1_idempotent_replay (cfgs : String → Option FeeConfig) (st : Ledger)
    (req1 req2 : CreatePaymentRequest) (rate1 rate2 : ℚ) (st1 : Ledger) (p1 : Payment)
    (hfresh : lookupByKey st req1.idempotency_key = none)
    (hkey : req2.idempotency_key = req1.idempotency_key)
    (h1 : createPayment cfgs st req1 rate1 = Except.ok (st1, p1)) :
    createPayment cfgs st1 req2 rate2 = Except.ok (st1, p1) := by
  simp only [createPayment, hfresh] at h1
  cases hc : cfgs req1.destination_currency with
  | none =>
    rw [hc] at h1
    cases h1
  | some cfg =>
    simp only [hc, Except.ok.injEq, Prod.mk.injEq] at h1
    obtain ⟨hst, hp⟩ := h1
    subst hst
    subst hp
    have hfresh2 : st.payments.find?
        (fun p => p.idempotency_key == req1.idempotency_key) = none := hfresh
    simp [createPayment, lookupByKey, hkey, List.find?_append, hfresh2]

/-- Witness for C1: replaying Scenario A's key with a different amount (250)
and a different rate (0.9) returns the original Scenario A payment and
leaves the ledger unchanged. -/
theorem C1_witness :
    createPayment defaultFeeConfigs scenarioALedger scenarioBReq (9/10) =
      Except.ok (scenarioALedger, scenarioAPayment) :=
  C1_idempotent_replay defaultFeeConfigs ledger0 scenarioAReq scenarioBReq (17/20) (9/10)
    scenarioALedger scenarioAPayment rfl rfl scenarioA_eval

/-! ## Monitoring-loop lemmas -/

theorem monitorOnrampTick_pending (s : MonitorState) :
    monitorOnrampTick s (some TxStatus.pending) = s := by
  unfold monitorOnrampTick
  split <;> rfl

theorem monitorOnrampTick_processing (s : MonitorState) :
    monitorOnrampTick s (some TxStatus.processing) = s := by
  unfold monitorOnrampTick
  split <;> rfl

theorem monitorOnrampTick_stopped (s : MonitorState) (h : s.pollingActive = false)
    (tx : Option TxStatus) : monitorOnrampTick s tx = s := by
  unfold monitorOnrampTick
  rw [h]
  rfl

theorem monitorOnrampTick_failed (s : MonitorState) (h : s.pollingActive = true) :
    monitorOnrampTick s (some TxStatus.failed) =
      ⟨PayStatus.failed, s.webhooksSent + 1, s.offrampStarted, false⟩ := by
  unfold monitorOnrampTick
  rw [h]
  rfl

/-- A stream that only ever reports `pending` leaves the monitoring loop
idle: every tick is a no-op. -/
theorem runMonitorFrom_pending (stream : Nat → Option TxStatus)
    (h : ∀ t, stream t = some TxStatus.pending) :
    ∀ i n s, runMonitorFrom stream i n s = s := by
  intro i n
  induction n generalizing i with
  | zero => intro s; rfl
  | succ n ih =>
    intro s
    simp only [runMonitorFrom, h i, monitorOnrampTick_pending]
    exact ih (i + 1) s

/-- Once `clearInterval` has run, no further tick mutates anything. -/
theorem runMonitorFrom_stopped (stream : Nat → Option TxStatus) (i n : Nat) (s : MonitorState)
    (h : s.pollingActive = false) : runMonitorFrom stream i n s = s := by
  induction n generalizing i with
  | zero => rfl
  | succ n ih =>
    simp only [runMonitorFrom, monitorOnrampTick_stopped s h]
    exact ih (i + 1)

/-- If the polled transaction is never `completed`, never missing, and is
`failed` at some tick inside the window, the loop ends with the payment
FAILED, the offramp never started, and polling stopped. -/
theorem runMonitorFrom_failed (stream : Nat → Option TxStatus) (i n : Nat) (s : MonitorState)
    (hact : s.pollingActive = true) (hoff : s.offrampStarted = false)
    (hnc : ∀ t, stream t ≠ some TxStatus.completed) (hnn : ∀ t, stream t ≠ none)
    (hk : ∃ k, i ≤ k ∧ k < i + n ∧ stream k = some TxStatus.failed) :
    (runMonitorFrom stream i n s).payStatus = PayStatus.failed ∧
    (runMonitorFrom stream i n s).offrampStarted = false ∧
    (runMonitorFrom stream i n s).pollingActive = false := by
  induction n generalizing i s with
  | zero =>
    obtain ⟨k, h1, h2, -⟩ := hk
    omega
  | succ n ih =>
    obtain ⟨k, hk1, hk2, hk3⟩ := hk
    cases htx : stream i with
    | none => exact absurd htx (hnn i)
    | some st =>
      cases st with
      | completed => exact absurd htx (hnc i)
      | failed =>
        simp only [runMonitorFrom, htx, monitorOnrampTick_failed s hact]
        rw [runMonitorFrom_stopped stream (i + 1) n _ rfl]
        exact ⟨rfl, hoff, rfl⟩
      | pending =>
        have hki : k ≠ i := by
          intro he
          rw [he, htx] at hk3
          cases hk3
        simp only [runMonitorFrom, htx, monitorOnrampTick_pending]
        exact ih (i + 1) s hact hoff ⟨k, by omega, by omega, hk3⟩
      | processing =>
        have hki : k ≠ i := by
          intro he
          rw [he, htx] at hk3
          cases hk3
        simp only [runMonitorFrom, htx, monitorOnrampTick_processing]
        exact ih (i + 1) s hact hoff ⟨k, by omega, by omega, hk3⟩

/-- C2: the state machine's terminal-state invariant is violated by the
orchestrator: `cancelPayment` on a PROCESSING payment reports success and
writes CANCELLED, but the still-armed onramp polling callback — which never
reads the payment's status — then overwrites CANCELLED with
ONRAMP_COMPLETE/OFFRAMP_PROCESSING, emits further webhooks, and starts the
offramp leg. This evaluates the code at that failing input. -/
theorem C2_cancel_not_respected :
    cancelPaymentRun (some processingState) =
      (some ⟨PayStatus.cancelled, 1, false, true⟩, true) ∧
    monitorOnrampTick ⟨PayStatus.cancelled, 1, false, true⟩ (some TxStatus.completed) =
      ⟨PayStatus.offrampProcessing, 4, true, false⟩ ∧
    (monitorOnrampTick ⟨PayStatus.cancelled, 1, false, true⟩
        (some TxStatus.completed)).payStatus ≠ PayStatus.cancelled ∧
    (monitorOnrampTick ⟨PayStatus.cancelled, 1, false, true⟩
        (some TxStatus.completed)).offrampStarted = true := by
  refine ⟨rfl, rfl, ?_, rfl⟩
  intro h
  cases h

/-- C4: when the onramp transaction never reaches a terminal status, the
orchestrator's 30-minute cap does not fail the payment: the timeout handler
only clears the interval, so the payment stays PROCESSING (non-terminal)
forever. This evaluates the code at that failing input; the claim (and the
twin Temporal implementation `monitorOnrampStatus`) expects a FAILED
transition instead. -/
theorem C4_timeout_leaves_processing (stream : Nat → Option TxStatus) (s : MonitorState)
    (h : ∀ t, stream t = some TxStatus.pending) (hs : s.payStatus = PayStatus.processing) :
    (orchMonitorRun stream s).payStatus = PayStatus.processing ∧
    (orchMonitorRun stream s).payStatus ≠ PayStatus.failed ∧
    (orchMonitorRun stream s).pollingActive = false ∧
    ∀ stream2 i n, runMonitorFrom stream2 i n (orchMonitorRun stream s) =
      orchMonitorRun stream s := by
  have h1 : orchMonitorRun stream s = { s with pollingActive := false } := by
    unfold orchMonitorRun
    rw [runMonitorFrom_pending stream h 0 360 s]
  rw [h1]
  refine ⟨hs, ?_, rfl, fun stream2 i n => runMonitorFrom_stopped stream2 i n _ rfl⟩
  show s.payStatus ≠ PayStatus.failed
  rw [hs]
  intro hcon
  cases hcon

/-- Witness for C4: a payment in PROCESSING whose onramp transaction polls
`pending` at every tick is still PROCESSING — not FAILED — after the
30-minute window closes, and stays that way. -/
theorem C4_witness :
    (orchMonitorRun pendingStream processingState).payStatus = PayStatus.processing ∧
    (orchMonitorRun pendingStream processingState).payStatus ≠ PayStatus.failed ∧
    (orchMonitorRun pendingStream processingState).pollingActive = false := by
  have h := C4_timeout_leaves_processing pendingStream processingState (fun t => rfl) rfl
  exact ⟨h.1, h.2.1, h.2.2.1⟩

/-- C8: if the onramp transaction resolves to `failed` (at some poll tick
within the 30-minute window, as the simulated providers always do — their
resolution delays are at most 60 seconds) and never reports `completed`,
the payment ends FAILED and no offramp settlement transaction is ever
created. -/
theorem C8_onramp_failure_no_offramp (stream : Nat → Option TxStatus) (s : MonitorState)
    (hact : s.pollingActive = true) (hoff : s.offrampStarted = false)
    (hnc : ∀ t, stream t ≠ some TxStatus.completed) (hnn : ∀ t, stream t ≠ none)
    (hk : ∃ k, k < 360 ∧ stream k = some TxStatus.failed) :
    (orchMonitorRun stream s).payStatus = PayStatus.failed ∧
    (orchMonitorRun stream s).offrampStarted = false := by
  obtain ⟨k, hk1, hk2⟩ := hk
  have h := runMonitorFrom_failed stream 0 360 s hact hoff hnc hnn ⟨k, by omega, by omega, hk2⟩
  constructor
  · simp only [orchMonitorRun]
    exact h.1
  · simp only [orchMonitorRun]
    exact h.2.1

/-- Witness for C8: a PROCESSING payment whose onramp transaction reports
`failed` ends FAILED with no offramp transaction. -/
theorem C8_witness :
    (orchMonitorRun failedStream processingState).payStatus = PayStatus.failed ∧
    (orchMonitorRun failedStream processingState).offrampStarted = false :=
  C8_onramp_failure_no_offramp failedStream processingState rfl rfl
    (fun t h => by cases h) (fun t h => by cases h) ⟨0, by omega, rfl⟩

/-- C10: `cancelPayment` returns `false` exactly when the payment is missing
or COMPLETED or FAILED; on a payment already CANCELLED it returns `true` and
re-runs the cancellation update, emitting one more status webhook. -/
theorem C10_cancelPayment_result (p : Option MonitorState) :
    ((cancelPaymentRun p).2 = false ↔
      p = none ∨ ∃ s, p = some s ∧
        (s.payStatus = PayStatus.completed ∨ s.payStatus = PayStatus.failed)) ∧
    (∀ s, p = some s → s.payStatus = PayStatus.cancelled →
      (cancelPaymentRun p).2 = true ∧
      (cancelPaymentRun p).1 =
        some ⟨PayStatus.cancelled, s.webhooksSent + 1, s.offrampStarted, s.pollingActive⟩) := by
  cases p with
  | none => simp [cancelPaymentRun]
  | some s =>
    constructor
    · simp only [cancelPaymentRun]
      split_ifs with hc
      · exact ⟨fun _ => Or.inr ⟨s, rfl, hc⟩, fun _ => rfl⟩
      · constructor
        · intro h
          cases h
        · rintro (h | ⟨s2, hs2, hterm⟩)
          · cases h
          · injection hs2 with hs2
            subst hs2
            exact absurd hterm hc
    · intro s2 hs2 hcanc
      injection hs2 with hs2
      subst hs2
      have hnotterm : ¬ (s.payStatus = PayStatus.completed ∨ s.payStatus = PayStatus.failed) := by
        rw [hcanc]
        rintro (h | h) <;> cases h
      simp only [cancelPaymentRun]
      rw [if_neg hnotterm]
      exact ⟨rfl, rfl⟩

/-- Witness for C10: cancelling an already-CANCELLED payment succeeds and
re-runs the update (one more webhook); cancelling a COMPLETED payment is
refused. -/
theorem C10_witness :
    (cancelPaymentRun (some ⟨PayStatus.cancelled, 5, false, false⟩)).2 = true ∧
    (cancelPaymentRun (some ⟨PayStatus.cancelled, 5, false, false⟩)).1 =
      some ⟨PayStatus.cancelled, 6, false, false⟩ ∧
    (cancelPaymentRun (some ⟨PayStatus.completed, 0, true, false⟩)).2 = false := by
  refine ⟨?_, ?_, ?_⟩
  · exact ((C10_cancelPayment_result (some ⟨PayStatus.cancelled, 5, false, false⟩)).2 _ rfl
      rfl).1
  · exact ((C10_cancelPayment_result (some ⟨PayStatus.cancelled, 5, false, false⟩)).2 _ rfl
      rfl).2
  · exact (C10_cancelPayment_result (some ⟨PayStatus.completed, 0, true, false⟩)).1.mpr
      (Or.inr ⟨_, rfl, Or.inl rfl⟩)

/-! ## Webhook retry claims -/

/-- C3 counterexample: the automatic delivery run of a webhook whose
endpoint fails on the initial attempt and on all 3 retries stores
`retry_count = 4` — the final `handleWebhookFailure` writes
`webhook.retry_count + 1 = 4` together with status `failed` — so the stored
retry count does exceed the claimed maximum of 3. -/
theorem C3_counterexample :
    runDelivery [false, false, false, false] initWebhook = ⟨WhStatus.failed, 4⟩ ∧
    ¬ (runDelivery [false, false, false, false] initWebhook).retry_count ≤ 3 := by
  decide

/-- C3 (amended): along the automatic delivery run of a fresh record the
stored retry count never exceeds maxRetries + 1 = 4 (4 is written exactly
when the record is marked `failed`); a record marked `sent` is never
re-attempted by `retryWebhook`; an attempt that marks the record `failed`
schedules no further automatic retry; but the manual `retryWebhook`
endpoint does reset and re-send a record already marked `failed`. -/
theorem sendWebhookAttempt_ok (w : WebhookRec) :
    sendWebhookAttempt w true = ({ w with status := WhStatus.sent }, false) := rfl

theorem sendWebhookAttempt_fail_le (w : WebhookRec) (h : w.retry_count + 1 ≤ 3) :
    sendWebhookAttempt w false = (⟨WhStatus.pending, w.retry_count + 1⟩, true) := by
  unfold sendWebhookAttempt
  rw [if_neg (by simp), if_pos h]

theorem sendWebhookAttempt_fail_gt (w : WebhookRec) (h : ¬ w.retry_count + 1 ≤ 3) :
    sendWebhookAttempt w false = (⟨WhStatus.failed, w.retry_count + 1⟩, false) := by
  unfold sendWebhookAttempt
  rw [if_neg (by simp), if_neg h]

theorem C3_retry_budget (outcomes : List Bool) (w : WebhookRec) :
    (w.retry_count ≤ 3 → (runDelivery outcomes w).retry_count ≤ 4) ∧
    (w.status = WhStatus.sent → retryWebhook w = (w, false)) ∧
    (∀ httpOk, (sendWebhookAttempt w httpOk).1.status = WhStatus.failed →
      (sendWebhookAttempt w httpOk).2 = false) ∧
    (w.status = WhStatus.failed → (retryWebhook w).2 = true) := by
  refine ⟨?_, ?_, ?_, ?_⟩
  · induction outcomes generalizing w with
    | nil => intro hw; simp only [runDelivery]; omega
    | cons httpOk rest ih =>
      intro hw
      cases httpOk with
      | true =>
        simp only [runDelivery, sendWebhookAttempt_ok, Bool.false_eq_true, if_false]
        omega
      | false =>
        by_cases h3 : w.retry_count + 1 ≤ 3
        · simp only [runDelivery, sendWebhookAttempt_fail_le w h3, if_true]
          exact ih _ h3
        · simp only [runDelivery, sendWebhookAttempt_fail_gt w h3, Bool.false_eq_true, if_false]
          omega
  · intro hs
    unfold retryWebhook
    rw [if_pos hs]
  · intro httpOk hfail
    cases httpOk with
    | true =>
      rw [sendWebhookAttempt_ok] at hfail
      cases hfail
    | false =>
      by_cases h3 : w.retry_count + 1 ≤ 3
      · rw [sendWebhookAttempt_fail_le w h3] at hfail
        cases hfail
      · rw [sendWebhookAttempt_fail_gt w h3]
  · intro hf
    unfold retryWebhook
    rw [if_neg]
    rw [hf]
    intro h
    cases h

/-- Witness for C3 (amended): a fresh record with one failure then a success
stays within the bound; a `sent` record is refused by `retryWebhook`; the
budget-exhausting attempt schedules nothing; a `failed` record is accepted
by the manual retry. -/
theorem C3_witness :
    (runDelivery [false, true] initWebhook).retry_count ≤ 4 ∧
    retryWebhook ⟨WhStatus.sent, 2⟩ = (⟨WhStatus.sent, 2⟩, false) ∧
    (sendWebhookAttempt ⟨WhStatus.pending, 3⟩ false).2 = false ∧
    (retryWebhook ⟨WhStatus.failed, 4⟩).2 = true := by
  refine ⟨?_, ?_, ?_, ?_⟩
  · exact (C3_retry_budget [false, true] initWebhook).1 (by decide)
  · exact (C3_retry_budget [] ⟨WhStatus.sent, 2⟩).2.1 rfl
  · exact (C3_retry_budget [] ⟨WhStatus.pending, 3⟩).2.2.1 false (by decide)
  · exact (C3_retry_budget [] ⟨WhStatus.failed, 4⟩).2.2.2 rfl

/-! ## Exchange-rate fallback claim -/

/-- C9: for two distinct currencies with no direct rate, no inverse rate and
no USD link in the base-rate table, `getExchangeRate` raises nothing — the
base rate silently falls back to exactly 1.0 (through the cross-rate `|| 1`
fallbacks when neither side is USD, through the final fallback branch when
one side is USD), and the returned rate is that 1.0 with the bounded ±2%
jitter applied and rounded to 5 decimals. -/
theorem C9_unknown_pair_fallback (src dst : String) (rand : ℚ)
    (hne : src ≠ dst)
    (hdir : mockRate src dst = none) (hinv : mockRate dst src = none)
    (hsrc : src = "USD" ∨ (mockRate src "USD" = none ∧ mockRate "USD" src = none))
    (hdst : dst = "USD" ∨ (mockRate dst "USD" = none ∧ mockRate "USD" dst = none))
    (h0 : 0 ≤ rand) (h1 : rand ≤ 1) :
    getBaseRate src dst = 1 ∧
    getExchangeRate src dst none rand = round5 (1 + (rand - 1/2) * (4/100)) ∧
    49/50 ≤ getExchangeRate src dst none rand ∧
    getExchangeRate src dst none rand ≤ 51/50 := by
  have hbase : getBaseRate src dst = 1 := by
    unfold getBaseRate
    rw [hdir, hinv]
    simp only
    split_ifs with hif
    · obtain ⟨hsu, hdu⟩ := hif
      rcases hsrc with h | ⟨hs1, hs2⟩
      · exact absurd h hsu
      · rcases hdst with h | ⟨hd1, hd2⟩
        · exact absurd h hdu
        · have hl1 : crossLegSrc src = 1 := by
            unfold crossLegSrc
            rw [hs1, hs2]
          have hl2 : crossLegDst dst = 1 := by
            unfold crossLegDst
            rw [hd2, hd1]
          rw [hl1, hl2]
          norm_num
    · rfl
  have hrate : getExchangeRate src dst none rand = round5 (1 + (rand - 1/2) * (4/100)) := by
    unfold getExchangeRate fetchExchangeRate
    rw [if_neg hne, hbase, one_mul]
  have hb1 : (49/50 : ℚ) ≤ round5 (1 + (rand - 1/2) * (4/100)) := by
    calc (49/50 : ℚ) = round5 (49/50) := (round5_self 98000 (by norm_num)).symm
      _ ≤ round5 (1 + (rand - 1/2) * (4/100)) := round5_mono (by linarith)
  have hb2 : round5 (1 + (rand - 1/2) * (4/100)) ≤ 51/50 := by
    calc round5 (1 + (rand - 1/2) * (4/100)) ≤ round5 (51/50) := round5_mono (by linarith)
      _ = 51/50 := round5_self 102000 (by norm_num)
  refine ⟨hbase, hrate, ?_, ?_⟩
  · rw [hrate]
    exact hb1
  · rw [hrate]
    exact hb2

/-- Witness for C9: the fully unconfigured pair PLN → KRW, with the random
draw at 1/2, yields exactly 1.0 and stays within the jitter bounds. -/
theorem C9_witness :
    getBaseRate "PLN" "KRW" = 1 ∧
    getExchangeRate "PLN" "KRW" none (1/2) =
      round5 (1 + ((1 : ℚ)/2 - 1/2) * (4/100)) ∧
    49/50 ≤ getExchangeRate "PLN" "KRW" none (1/2) ∧
    getExchangeRate "PLN" "KRW" none (1/2) ≤ 51/50 :=
  C9_unknown_pair_fallback "PLN" "KRW" (1/2) (by decide) rfl rfl
    (Or.inr ⟨rfl, rfl⟩) (Or.inr ⟨rfl, rfl⟩) (by norm_num) (by norm_num)

end CrossPay
